import Mathlib

/-!
Verification of the MaStR battery-storage dashboard's data pipeline
(`battery_dashboard.py`): snapshot selection, normalization
(`preprocess_data`), and the sidebar filter chain in `main`.

Numbers are modelled as rationals; a pandas `NaN` cell is modelled as
`Option.none` ("missing").  Each definition embeds the source construct
named in its doc comment.
-/

namespace BatteryDashboard

/-- A scalar JSON value as it appears in a raw snapshot record:
a string, a number, or `null`. -/
inductive JsonVal where
  | str (s : String)
  | num (q : ℚ)
  | null
  deriving DecidableEq

/-- Numeric value of a decimal digit character. -/
def digitVal (c : Char) : ℕ := c.toNat - 48

/-- The natural number denoted by a list of decimal digit characters. -/
def natOfDigits (cs : List Char) : ℕ :=
  cs.foldl (fun acc c => 10 * acc + digitVal c) 0

/-- Strip leading and trailing whitespace from a character list. -/
def trimChars (cs : List Char) : List Char :=
  ((cs.dropWhile Char.isWhitespace).reverse.dropWhile Char.isWhitespace).reverse

/-- Parse a decimal string (optional sign, digits, optional fractional
part) to a rational, as Python float conversion does for the decimal
strings occurring in the registry data; anything else is `none`.
Embeds the string branch of `pd.to_numeric(..., errors='coerce')`
(battery_dashboard.py line 91). -/
def parseNumQ (s : String) : Option ℚ :=
  let cs := trimChars s.data
  let signedBody : Bool × List Char :=
    match cs with
    | '-' :: t => (true, t)
    | '+' :: t => (false, t)
    | t => (false, t)
  let neg := signedBody.1
  let body := signedBody.2
  let ip := body.takeWhile (fun c => c ≠ '.')
  let mag : Option ℚ :=
    match body.dropWhile (fun c => c ≠ '.') with
    | [] =>
      if !ip.isEmpty && ip.all Char.isDigit then
        some ((natOfDigits ip : ℚ))
      else none
    | _ :: frac =>
      if (!ip.isEmpty || !frac.isEmpty) && ip.all Char.isDigit
          && frac.all Char.isDigit && !frac.any (fun c => c = '.') then
        some ((natOfDigits ip : ℚ) + (natOfDigits frac : ℚ) / (10 : ℚ) ^ frac.length)
      else none
  mag.map (fun v => if neg then -v else v)

/-- `pd.to_numeric(value, errors='coerce')` on one cell: numbers pass
through, numeric strings are parsed, everything else (including an
absent cell and JSON `null`) becomes missing (battery_dashboard.py
lines 88-97). -/
def toNumeric (v : Option JsonVal) : Option ℚ :=
  match v with
  | some (JsonVal.num q) => some q
  | some (JsonVal.str s) => parseNumQ s
  | some JsonVal.null => none
  | none => none

/-- Replace every occurrence of `pat` (nonempty) in the character list,
scanning left to right; `fuel` bounds the number of scan steps. -/
def replaceAllAux (pat rep : List Char) : ℕ → List Char → List Char
  | _, [] => []
  | 0, s => s
  | fuel + 1, c :: rest =>
    if pat.isPrefixOf (c :: rest) then
      rep ++ replaceAllAux pat rep fuel ((c :: rest).drop pat.length)
    else c :: replaceAllAux pat rep fuel rest

/-- Python `str.replace(pat, rep)`: replace every (non-overlapping,
leftmost-first) occurrence of `pat`. -/
def replaceAllChars (s pat rep : List Char) : List Char :=
  if pat.isEmpty then s else replaceAllAux pat rep s.length s

/-- Strip the `/Date(` and `)/` delimiters, as the two chained literal
`str.replace` calls do (battery_dashboard.py line 85). -/
def stripDateDelims (s : String) : String :=
  ⟨replaceAllChars (replaceAllChars s.data "/Date(".data [] ) ")/".data []⟩

/-- Parse an (optionally signed) integer string; `none` otherwise. -/
def parseIntStr (s : String) : Option ℤ :=
  match s.data with
  | '-' :: t =>
    if !t.isEmpty && t.all Char.isDigit then some (-(natOfDigits t : ℤ)) else none
  | t =>
    if !t.isEmpty && t.all Char.isDigit then some ((natOfDigits t : ℤ)) else none

/-- One date cell of `pd.to_datetime(col.str.replace(...), unit='ms',
errors='coerce')` (battery_dashboard.py lines 82-85): a string cell has
the delimiters stripped and the remaining digits read as milliseconds
since the epoch; a non-string or absent cell becomes missing. -/
def parseDateMs (v : Option JsonVal) : Option ℤ :=
  match v with
  | some (JsonVal.str s) => parseIntStr (stripDateDelims s)
  | _ => none

/-- The fixed technology-code table `BATTERY_TECH_MAPPING`
(battery_dashboard.py lines 11-18). -/
def BATTERY_TECH_MAPPING (c : ℚ) : Option String :=
  if c = 727 then some "Lithium-Batterie"
  else if c = 728 then some "Blei-Batterie"
  else if c = 729 then some "Redox-Flow-Batterie"
  else if c = 730 then some "Hochtemperaturbatterie"
  else if c = 731 then some "Nickel-Cadmium- / Nickel-Metallhydridbatterie"
  else if c = 732 then some "Sonstige Batterie"
  else none

/-- One cell of `df['Batterietechnologie'].map(BATTERY_TECH_MAPPING)`
(battery_dashboard.py line 110): a numeric cell is looked up in the
table, any other cell maps to missing. -/
def techLookup (v : Option JsonVal) : Option String :=
  match v with
  | some (JsonVal.num c) => BATTERY_TECH_MAPPING c
  | _ => none

/-- One cell of `pd.cut(x, bins=[0, 1, 10, 100, 1000, inf], labels=...)`
(battery_dashboard.py lines 113-123): the five left-open right-closed
bins, with values at or below `0` and missing values uncategorized. -/
def cut5 (l1 l2 l3 l4 l5 : String) (x : Option ℚ) : Option String :=
  match x with
  | none => none
  | some v =>
    if 0 < v ∧ v ≤ 1 then some l1
    else if 1 < v ∧ v ≤ 10 then some l2
    else if 10 < v ∧ v ≤ 100 then some l3
    else if 100 < v ∧ v ≤ 1000 then some l4
    else if 1000 < v then some l5
    else none

/-- One raw registry record: the fields `preprocess_data` and `main`
touch, each `none` when the key is absent from the record's JSON
object. -/
structure RawRecord where
  Bruttoleistung : Option JsonVal := none
  Nettonennleistung : Option JsonVal := none
  NutzbareSpeicherkapazitaet : Option JsonVal := none
  Breitengrad : Option JsonVal := none
  Laengengrad : Option JsonVal := none
  Batterietechnologie : Option JsonVal := none
  BetriebsStatusName : Option String := none
  Bundesland : Option String := none
  AnlagenbetreiberName : Option String := none
  NetzbetreiberNamen : Option String := none
  EinheitName : Option String := none
  DatumLetzteAktualisierung : Option JsonVal := none
  EinheitRegistrierungsdatum : Option JsonVal := none
  InbetriebnahmeDatum : Option JsonVal := none
  GeplantesInbetriebnahmeDatum : Option JsonVal := none
  deriving DecidableEq

/-- One row after `preprocess_data`: coerced columns, derived columns
and categories.  An `Option` field is `none` where the pandas cell
would be `NaN`/`NaT`, and `BatteryTechnologyName` is `none` when the
whole column was not created. -/
structure NormRecord where
  Bruttoleistung : Option ℚ
  Nettonennleistung : Option ℚ
  NutzbareSpeicherkapazitaet : Option ℚ
  Breitengrad : Option ℚ
  Laengengrad : Option ℚ
  Power_MW : Option ℚ
  Capacity_MWh : Option ℚ
  Duration_hours : ℚ
  BatteryTechnologyName : Option String
  Power_Category : Option String
  Capacity_Category : Option String
  BetriebsStatusName : Option String
  Bundesland : Option String
  AnlagenbetreiberName : Option String
  NetzbetreiberNamen : Option String
  EinheitName : Option String
  DatumLetzteAktualisierung : Option ℤ
  EinheitRegistrierungsdatum : Option ℤ
  InbetriebnahmeDatum : Option ℤ
  GeplantesInbetriebnahmeDatum : Option ℤ
  deriving DecidableEq

/-- `df['Power_MW'] = df['Bruttoleistung'] / 1000`
(battery_dashboard.py line 100), on one row. -/
def powerMW (r : RawRecord) : Option ℚ :=
  (toNumeric r.Bruttoleistung).map (fun v => v / 1000)

/-- `df['Capacity_MWh'] = df['NutzbareSpeicherkapazitaet'] / 1000`
(battery_dashboard.py line 101), on one row. -/
def capacityMWh (r : RawRecord) : Option ℚ :=
  (toNumeric r.NutzbareSpeicherkapazitaet).map (fun v => v / 1000)

/-- `df['Capacity_MWh'] / df['Power_MW'].replace(0, nan)` followed by
`.fillna(0)` (battery_dashboard.py lines 105-106), on one row: a zero
power is first turned into missing, a missing numerator or denominator
makes the quotient missing, and a missing quotient is filled with `0`. -/
def durationHours (r : RawRecord) : ℚ :=
  match capacityMWh r, powerMW r with
  | some c, some p => if p = 0 then 0 else c / p
  | _, _ => 0

/-- `df['Batterietechnologie'].map(BATTERY_TECH_MAPPING).fillna('Unbekannt')`,
guarded by the column-presence check of battery_dashboard.py line 109:
when the column exists the lookup's missing results are filled with
"Unbekannt"; when it does not, no `BatteryTechnologyName` is created. -/
def batteryTechnologyName (hasTech : Bool) (r : RawRecord) : Option String :=
  if hasTech then some ((techLookup r.Batterietechnologie).getD "Unbekannt") else none

/-- One row of `preprocess_data`'s column pipeline
(battery_dashboard.py lines 82-123).  `hasTech` records whether the
`Batterietechnologie` column exists in the frame. -/
def normalizeRecord (hasTech : Bool) (r : RawRecord) : NormRecord :=
  { Bruttoleistung := toNumeric r.Bruttoleistung
    Nettonennleistung := toNumeric r.Nettonennleistung
    NutzbareSpeicherkapazitaet := toNumeric r.NutzbareSpeicherkapazitaet
    Breitengrad := toNumeric r.Breitengrad
    Laengengrad := toNumeric r.Laengengrad
    Power_MW := powerMW r
    Capacity_MWh := capacityMWh r
    Duration_hours := durationHours r
    BatteryTechnologyName := batteryTechnologyName hasTech r
    Power_Category := cut5 "<1 MW" "1-10 MW" "10-100 MW" "100-1000 MW" ">1000 MW" (powerMW r)
    Capacity_Category := cut5 "<1 MWh" "1-10 MWh" "10-100 MWh" "100-1000 MWh" ">1000 MWh" (capacityMWh r)
    BetriebsStatusName := r.BetriebsStatusName
    Bundesland := r.Bundesland
    AnlagenbetreiberName := r.AnlagenbetreiberName
    NetzbetreiberNamen := r.NetzbetreiberNamen
    EinheitName := r.EinheitName
    DatumLetzteAktualisierung := parseDateMs r.DatumLetzteAktualisierung
    EinheitRegistrierungsdatum := parseDateMs r.EinheitRegistrierungsdatum
    InbetriebnahmeDatum := parseDateMs r.InbetriebnahmeDatum
    GeplantesInbetriebnahmeDatum := parseDateMs r.GeplantesInbetriebnahmeDatum }

/-- A pandas column exists iff at least one record carries the key. -/
def hasColumn (records : List RawRecord) (field : RawRecord → Option JsonVal) : Bool :=
  records.any (fun r => (field r).isSome)

/-- A record carrying none of the modelled keys: such records
contribute no column to the frame. -/
def rowIsEmpty (r : RawRecord) : Bool :=
  r.Bruttoleistung.isNone && r.Nettonennleistung.isNone
    && r.NutzbareSpeicherkapazitaet.isNone && r.Breitengrad.isNone
    && r.Laengengrad.isNone && r.Batterietechnologie.isNone
    && r.BetriebsStatusName.isNone && r.Bundesland.isNone
    && r.AnlagenbetreiberName.isNone && r.NetzbetreiberNamen.isNone
    && r.EinheitName.isNone && r.DatumLetzteAktualisierung.isNone
    && r.EinheitRegistrierungsdatum.isNone && r.InbetriebnahmeDatum.isNone
    && r.GeplantesInbetriebnahmeDatum.isNone

/-- `df.empty`: true when the frame has no rows or no columns. -/
def dfEmpty (records : List RawRecord) : Bool :=
  records.isEmpty || records.all rowIsEmpty

/-- Outcome of `preprocess_data` (battery_dashboard.py lines 76-125):
the input frame returned unchanged by the `df.empty` early return, the
normalized rows, or a raised `KeyError` (an unguarded `df[...]` access
to a column that does not exist, lines 100-101). -/
inductive PreprocessResult where
  | unchanged (records : List RawRecord)
  | ok (records : List NormRecord)
  | keyError (column : String)
  deriving DecidableEq

/-- `preprocess_data` (battery_dashboard.py lines 76-125).  The date
and numeric coercion loops are guarded per column and act elementwise,
so they never fail; the derived-column assignments on lines 100-101
access `df['Bruttoleistung']` and `df['NutzbareSpeicherkapazitaet']`
unguarded and raise `KeyError` when that column is absent. -/
def preprocess_data (records : List RawRecord) : PreprocessResult :=
  if dfEmpty records then PreprocessResult.unchanged records
  else if !hasColumn records (fun r => r.Bruttoleistung) then
    PreprocessResult.keyError "Bruttoleistung"
  else if !hasColumn records (fun r => r.NutzbareSpeicherkapazitaet) then
    PreprocessResult.keyError "NutzbareSpeicherkapazitaet"
  else
    PreprocessResult.ok
      (records.map (normalizeRecord (hasColumn records (fun r => r.Batterietechnologie))))

/-- Python `s.startswith(p)`. -/
def strStartsWith (s p : String) : Bool :=
  p.data.isPrefixOf s.data

/-- Python `s.endswith(p)`. -/
def strEndsWith (s p : String) : Bool :=
  p.data.reverse.isPrefixOf s.data.reverse

/-- Whether a file name matches the snapshot-selection condition of
`load_battery_data` (battery_dashboard.py line 54). -/
def isDataFile (f : String) : Bool :=
  (strStartsWith f "all_batterie_speicher_" || strStartsWith f "dashboard_batterie_speicher_")
    && strEndsWith f ".json"

/-- Python `<` on strings: strict lexicographic order on code points. -/
def charListLtb : List Char → List Char → Bool
  | _, [] => false
  | [], _ :: _ => true
  | a :: as, b :: bs =>
    Nat.blt a.toNat b.toNat || (a.toNat == b.toNat && charListLtb as bs)

/-- Python `<` on strings, lifted from the character lists. -/
def pyStrLt (a b : String) : Bool :=
  charListLtb a.data b.data

/-- Insertion into an ascending list, by code-point order. -/
def sortedInsert (x : String) : List String → List String
  | [] => [x]
  | y :: ys => if pyStrLt x y then x :: y :: ys else y :: sortedInsert x ys

/-- Python `sorted` on file names: ascending lexicographic
(code-point) order. -/
def pySorted (l : List String) : List String :=
  l.foldr sortedInsert []

/-- The snapshot-selection logic of `load_battery_data`
(battery_dashboard.py lines 54-60): filter the directory listing for
recognized data files, return `none` when no file matches, otherwise
`sorted(data_files)[-1]`, the lexicographically greatest match. -/
def select_data_file (listing : List String) : Option String :=
  let data_files := listing.filter isDataFile
  if data_files.isEmpty then none
  else (pySorted data_files).getLast?

/-- One sidebar filter criterion from `main`
(battery_dashboard.py lines 360-390): an equality test on a labelled
column or an inclusive range test on a derived numeric column. -/
inductive Criterion where
  | statusEq (s : String)
  | bundeslandEq (s : String)
  | ownerEq (s : String)
  | networkOperatorEq (s : String)
  | technologyEq (s : String)
  | powerRange (lo hi : ℚ)
  | capacityRange (lo hi : ℚ)
  | durationRange (lo hi : ℚ)
  deriving DecidableEq

/-- Evaluate one criterion on one row, as the boolean masks of
battery_dashboard.py lines 362-390 do: a pandas comparison against a
`NaN` cell is false, so a missing value fails every equality and every
range test. -/
def evalCriterion (c : Criterion) (r : NormRecord) : Bool :=
  match c with
  | Criterion.statusEq s => r.BetriebsStatusName = some s
  | Criterion.bundeslandEq s => r.Bundesland = some s
  | Criterion.ownerEq s => r.AnlagenbetreiberName = some s
  | Criterion.networkOperatorEq s => r.NetzbetreiberNamen = some s
  | Criterion.technologyEq s => r.BatteryTechnologyName = some s
  | Criterion.powerRange lo hi =>
    match r.Power_MW with
    | none => false
    | some v => decide (lo ≤ v) && decide (v ≤ hi)
  | Criterion.capacityRange lo hi =>
    match r.Capacity_MWh with
    | none => false
    | some v => decide (lo ≤ v) && decide (v ≤ hi)
  | Criterion.durationRange lo hi =>
    decide (lo ≤ r.Duration_hours) && decide (r.Duration_hours ≤ hi)

/-- The filter chain of `main` (battery_dashboard.py lines 360-390):
keep the rows satisfying every criterion of the set, in order.  An
"All" selection contributes no criterion. -/
def filterRecords (cs : List Criterion) (rs : List NormRecord) : List NormRecord :=
  rs.filter (fun r => cs.all (fun c => evalCriterion c r))

/-- The display-time coordinate filter of `create_map`
(battery_dashboard.py line 130):
`df_filtered.dropna(subset=['Breitengrad', 'Laengengrad'])`. -/
def create_map_rows (rs : List NormRecord) : List NormRecord :=
  rs.filter (fun r => r.Breitengrad.isSome && r.Laengengrad.isSome)

/-! ## Helper lemmas -/

/-- The `Power_MW` column of a normalized row is the per-row power
derivation. -/
theorem normalizeRecord_Power_MW (hasTech : Bool) (r : RawRecord) :
    (normalizeRecord hasTech r).Power_MW = powerMW r := rfl

/-- The `Capacity_MWh` column of a normalized row is the per-row
capacity derivation. -/
theorem normalizeRecord_Capacity_MWh (hasTech : Bool) (r : RawRecord) :
    (normalizeRecord hasTech r).Capacity_MWh = capacityMWh r := rfl

/-- The `Duration_hours` column of a normalized row is the per-row
duration derivation. -/
theorem normalizeRecord_Duration_hours (hasTech : Bool) (r : RawRecord) :
    (normalizeRecord hasTech r).Duration_hours = durationHours r := rfl

/-- The `Power_Category` column of a normalized row is the power bucket
of the derived power. -/
theorem normalizeRecord_Power_Category (hasTech : Bool) (r : RawRecord) :
    (normalizeRecord hasTech r).Power_Category =
      cut5 "<1 MW" "1-10 MW" "10-100 MW" "100-1000 MW" ">1000 MW" (powerMW r) := rfl

/-- The `Capacity_Category` column of a normalized row is the capacity
bucket of the derived capacity. -/
theorem normalizeRecord_Capacity_Category (hasTech : Bool) (r : RawRecord) :
    (normalizeRecord hasTech r).Capacity_Category =
      cut5 "<1 MWh" "1-10 MWh" "10-100 MWh" "100-1000 MWh" ">1000 MWh" (capacityMWh r) := rfl

/-- With the technology column present, the name column is the filled
lookup. -/
theorem normalizeRecord_tech_true (r : RawRecord) :
    (normalizeRecord true r).BatteryTechnologyName =
      some ((techLookup r.Batterietechnologie).getD "Unbekannt") := rfl

/-- A nonpositive value falls outside all five bins. -/
theorem cut5_of_nonpos (l1 l2 l3 l4 l5 : String) (v : ℚ) (h : v ≤ 0) :
    cut5 l1 l2 l3 l4 l5 (some v) = none := by
  have n1 : ¬(0 < v) := not_lt.mpr h
  have n2 : ¬(1 < v) := by linarith
  have n3 : ¬(10 < v) := by linarith
  have n4 : ¬(100 < v) := by linarith
  have n5 : ¬(1000 < v) := by linarith
  simp [cut5, n1, n2, n3, n4, n5]

/-- The first bin `(0, 1]`. -/
theorem cut5_bin1 (l1 l2 l3 l4 l5 : String) (v : ℚ) (h0 : 0 < v) (h1 : v ≤ 1) :
    cut5 l1 l2 l3 l4 l5 (some v) = some l1 := by
  simp [cut5, h0, h1]

/-- The second bin `(1, 10]`. -/
theorem cut5_bin2 (l1 l2 l3 l4 l5 : String) (v : ℚ) (h0 : 1 < v) (h1 : v ≤ 10) :
    cut5 l1 l2 l3 l4 l5 (some v) = some l2 := by
  have n1 : ¬(v ≤ 1) := not_le.mpr h0
  simp [cut5, n1, h0, h1]

/-- The third bin `(10, 100]`. -/
theorem cut5_bin3 (l1 l2 l3 l4 l5 : String) (v : ℚ) (h0 : 10 < v) (h1 : v ≤ 100) :
    cut5 l1 l2 l3 l4 l5 (some v) = some l3 := by
  have n1 : ¬(v ≤ 1) := by linarith
  have n2 : ¬(v ≤ 10) := not_le.mpr h0
  simp [cut5, n1, n2, h0, h1]

/-- The fourth bin `(100, 1000]`. -/
theorem cut5_bin4 (l1 l2 l3 l4 l5 : String) (v : ℚ) (h0 : 100 < v) (h1 : v ≤ 1000) :
    cut5 l1 l2 l3 l4 l5 (some v) = some l4 := by
  have n1 : ¬(v ≤ 1) := by linarith
  have n2 : ¬(v ≤ 10) := by linarith
  have n3 : ¬(v ≤ 100) := not_le.mpr h0
  simp [cut5, n1, n2, n3, h0, h1]

/-- The last bin `(1000, ∞)`. -/
theorem cut5_bin5 (l1 l2 l3 l4 l5 : String) (v : ℚ) (h0 : 1000 < v) :
    cut5 l1 l2 l3 l4 l5 (some v) = some l5 := by
  have n1 : ¬(v ≤ 1) := by linarith
  have n2 : ¬(v ≤ 10) := by linarith
  have n3 : ¬(v ≤ 100) := by linarith
  have n4 : ¬(v ≤ 1000) := not_le.mpr h0
  simp [cut5, n1, n2, n3, n4, h0]

/-- A row with a present `Bruttoleistung` is not an empty row. -/
theorem rowIsEmpty_eq_false_of_brutto {r : RawRecord} (h : r.Bruttoleistung.isSome) :
    rowIsEmpty r = false := by
  rcases hv : r.Bruttoleistung with _ | v
  · rw [hv] at h
    simp at h
  · simp [rowIsEmpty, hv]

/-! ## Claim theorems -/

/-- C1: on the directory listing
`["dashboard_batterie_speicher_2024-01-01.json", "all_batterie_speicher_2024-03-05.json"]`
the snapshot selector returns the lexicographically greatest matching
name, which is the `dashboard_` file of 2024-01-01 — not the more
recent `all_` file of 2024-03-05 that the code's own comment
("Use the most recent file") intends. -/
theorem select_data_file_on_mixed_prefixes :
    select_data_file ["dashboard_batterie_speicher_2024-01-01.json",
      "all_batterie_speicher_2024-03-05.json"] =
        some "dashboard_batterie_speicher_2024-01-01.json" ∧
    select_data_file ["dashboard_batterie_speicher_2024-01-01.json",
      "all_batterie_speicher_2024-03-05.json"] ≠
        some "all_batterie_speicher_2024-03-05.json" := by
  constructor
  · decide
  · decide

/-- C2 counterexample: a structurally valid one-record input carrying
only `EinheitName` makes `preprocess_data` raise a `KeyError` at the
unguarded `df['Bruttoleistung']` access, so normalization does not run
to completion on every structurally valid input. -/
theorem preprocess_data_keyerror_counterexample :
    preprocess_data [{ EinheitName := some "Testspeicher" }] =
      PreprocessResult.keyError "Bruttoleistung" := by
  decide

/-- C2 amended: whenever at least one record carries `Bruttoleistung`
and at least one carries `NutzbareSpeicherkapazitaet` (so the two
columns read by the unguarded derivations exist), `preprocess_data`
runs to completion and returns one normalized row per input row;
per-field coercion failures surface only as missing markers or domain
defaults inside those rows, never as an error. -/
theorem preprocess_data_ok_of_columns_present (records : List RawRecord)
    (hb : hasColumn records (fun r => r.Bruttoleistung) = true)
    (hn : hasColumn records (fun r => r.NutzbareSpeicherkapazitaet) = true) :
    preprocess_data records =
      PreprocessResult.ok
        (records.map (normalizeRecord (hasColumn records (fun r => r.Batterietechnologie)))) := by
  have hne : records.isEmpty = false := by
    cases records with
    | nil => simp [hasColumn] at hb
    | cons a l => rfl
  have hrow : records.all rowIsEmpty = false := by
    rcases List.any_eq_true.mp hb with ⟨r, hr, hsome⟩
    refine List.all_eq_false.mpr ⟨r, hr, ?_⟩
    simp [rowIsEmpty_eq_false_of_brutto hsome]
  unfold preprocess_data
  rw [if_neg, if_neg, if_neg]
  · simp [hn]
  · simp [hb]
  · simp [dfEmpty, hne, hrow]

/-- Witness for the amended C2 theorem at a concrete two-record
input. -/
theorem preprocess_data_ok_of_columns_present_witness :
    preprocess_data
      [{ Bruttoleistung := some (JsonVal.num 5000) },
       { NutzbareSpeicherkapazitaet := some (JsonVal.num 20000) }] =
      PreprocessResult.ok
        ([{ Bruttoleistung := some (JsonVal.num 5000) },
          { NutzbareSpeicherkapazitaet := some (JsonVal.num 20000) }].map
          (normalizeRecord false)) :=
  preprocess_data_ok_of_columns_present
    [{ Bruttoleistung := some (JsonVal.num 5000) },
     { NutzbareSpeicherkapazitaet := some (JsonVal.num 20000) }]
    (by decide) (by decide)

/-- C3 counterexample: when no record of the input carries
`Batterietechnologie`, the guarded assignment of line 109 is skipped
and the normalized record has no `BatteryTechnologyName` at all, so it
does not equal the literal "Unbekannt". -/
theorem battery_technology_name_absent_column_counterexample :
    preprocess_data
      [{ Bruttoleistung := some (JsonVal.num 5000),
         NutzbareSpeicherkapazitaet := some (JsonVal.num 20000) }] =
      PreprocessResult.ok
        [normalizeRecord false
          { Bruttoleistung := some (JsonVal.num 5000),
            NutzbareSpeicherkapazitaet := some (JsonVal.num 20000) }] ∧
    (normalizeRecord false
      { Bruttoleistung := some (JsonVal.num 5000),
        NutzbareSpeicherkapazitaet := some (JsonVal.num 20000) }).BatteryTechnologyName ≠
      some "Unbekannt" := by
  constructor
  · rfl
  · decide

/-- C3 amended: provided the `Batterietechnologie` column exists in the
frame, a record whose code is absent, non-numeric, or not one of
727-732 resolves to the literal "Unbekannt", and the six table codes
resolve to their fixed German labels; when the column does not exist,
the normalized record carries no `BatteryTechnologyName`. -/
theorem battery_technology_name_resolution (r : RawRecord) :
    (r.Batterietechnologie = none →
      (normalizeRecord true r).BatteryTechnologyName = some "Unbekannt") ∧
    (∀ s, r.Batterietechnologie = some (JsonVal.str s) →
      (normalizeRecord true r).BatteryTechnologyName = some "Unbekannt") ∧
    (r.Batterietechnologie = some JsonVal.null →
      (normalizeRecord true r).BatteryTechnologyName = some "Unbekannt") ∧
    (∀ c : ℚ, r.Batterietechnologie = some (JsonVal.num c) →
      c ∉ ([727, 728, 729, 730, 731, 732] : List ℚ) →
      (normalizeRecord true r).BatteryTechnologyName = some "Unbekannt") ∧
    (r.Batterietechnologie = some (JsonVal.num 727) →
      (normalizeRecord true r).BatteryTechnologyName = some "Lithium-Batterie") ∧
    (r.Batterietechnologie = some (JsonVal.num 728) →
      (normalizeRecord true r).BatteryTechnologyName = some "Blei-Batterie") ∧
    (r.Batterietechnologie = some (JsonVal.num 729) →
      (normalizeRecord true r).BatteryTechnologyName = some "Redox-Flow-Batterie") ∧
    (r.Batterietechnologie = some (JsonVal.num 730) →
      (normalizeRecord true r).BatteryTechnologyName = some "Hochtemperaturbatterie") ∧
    (r.Batterietechnologie = some (JsonVal.num 731) →
      (normalizeRecord true r).BatteryTechnologyName =
        some "Nickel-Cadmium- / Nickel-Metallhydridbatterie") ∧
    (r.Batterietechnologie = some (JsonVal.num 732) →
      (normalizeRecord true r).BatteryTechnologyName = some "Sonstige Batterie") ∧
    (normalizeRecord false r).BatteryTechnologyName = none := by
  refine ⟨?_, ?_, ?_, ?_, ?_, ?_, ?_, ?_, ?_, ?_, rfl⟩
  · intro h
    rw [normalizeRecord_tech_true]
    simp [techLookup, h]
  · intro s h
    rw [normalizeRecord_tech_true]
    simp [techLookup, h]
  · intro h
    rw [normalizeRecord_tech_true]
    simp [techLookup, h]
  · intro c h hmem
    simp only [List.mem_cons, List.not_mem_nil, or_false, not_or] at hmem
    obtain ⟨n1, n2, n3, n4, n5, n6⟩ := hmem
    rw [normalizeRecord_tech_true]
    simp [techLookup, h, BATTERY_TECH_MAPPING, n1, n2, n3, n4, n5, n6]
  all_goals
    intro h
    rw [normalizeRecord_tech_true]
    simp [techLookup, h, BATTERY_TECH_MAPPING]

/-- Witness for the amended C3 theorem: an absent code, the unknown
code 999, and the known code 727 on concrete records. -/
theorem battery_technology_name_resolution_witness :
    (normalizeRecord true {}).BatteryTechnologyName = some "Unbekannt" ∧
    (normalizeRecord true
      { Batterietechnologie := some (JsonVal.num 999) }).BatteryTechnologyName =
      some "Unbekannt" ∧
    (normalizeRecord true
      { Batterietechnologie := some (JsonVal.num 727) }).BatteryTechnologyName =
      some "Lithium-Batterie" :=
  ⟨(battery_technology_name_resolution {}).1 rfl,
   (battery_technology_name_resolution
      { Batterietechnologie := some (JsonVal.num 999) }).2.2.2.1 999 rfl (by decide),
   (battery_technology_name_resolution
      { Batterietechnologie := some (JsonVal.num 727) }).2.2.2.2.1 rfl⟩

/-- C4: `Duration_hours` is the exact quotient of the derived capacity
by the derived power when the power is present and non-zero, and is the
explicit zero default whenever the power is missing, the power is zero,
or the capacity is missing; it is always a number, never a missing
marker. -/
theorem duration_hours_zero_fill (hasTech : Bool) (r : RawRecord) :
    ((normalizeRecord hasTech r).Power_MW = none →
      (normalizeRecord hasTech r).Duration_hours = 0) ∧
    ((normalizeRecord hasTech r).Power_MW = some 0 →
      (normalizeRecord hasTech r).Duration_hours = 0) ∧
    ((normalizeRecord hasTech r).Capacity_MWh = none →
      (normalizeRecord hasTech r).Duration_hours = 0) ∧
    (∀ p c : ℚ, (normalizeRecord hasTech r).Power_MW = some p → p ≠ 0 →
      (normalizeRecord hasTech r).Capacity_MWh = some c →
      (normalizeRecord hasTech r).Duration_hours = c / p) := by
  rw [normalizeRecord_Power_MW, normalizeRecord_Capacity_MWh, normalizeRecord_Duration_hours]
  refine ⟨?_, ?_, ?_, ?_⟩
  · intro h
    rcases hc : capacityMWh r with _ | c <;> simp [durationHours, h, hc]
  · intro h
    rcases hc : capacityMWh r with _ | c <;> simp [durationHours, h, hc]
  · intro h
    rcases hp : powerMW r with _ | p <;> simp [durationHours, h, hp]
  · intro p c hp hpz hc
    simp [durationHours, hp, hc, hpz]

/-- Witness for the C4 theorem: missing power, zero power, missing
capacity and a genuine division, on concrete records. -/
theorem duration_hours_zero_fill_witness :
    (normalizeRecord false {}).Duration_hours = 0 ∧
    (normalizeRecord false { Bruttoleistung := some (JsonVal.num 0) }).Duration_hours = 0 ∧
    (normalizeRecord false { Bruttoleistung := some (JsonVal.num 5000) }).Duration_hours = 0 ∧
    (normalizeRecord false
      { Bruttoleistung := some (JsonVal.num 5000),
        NutzbareSpeicherkapazitaet := some (JsonVal.num 20000) }).Duration_hours = 20 / 5 :=
  ⟨(duration_hours_zero_fill false {}).1 rfl,
   (duration_hours_zero_fill false { Bruttoleistung := some (JsonVal.num 0) }).2.1
     (by norm_num [normalizeRecord_Power_MW, powerMW, toNumeric]),
   (duration_hours_zero_fill false { Bruttoleistung := some (JsonVal.num 5000) }).2.2.1 rfl,
   (duration_hours_zero_fill false
      { Bruttoleistung := some (JsonVal.num 5000),
        NutzbareSpeicherkapazitaet := some (JsonVal.num 20000) }).2.2.2 5 20
     (by norm_num [normalizeRecord_Power_MW, powerMW, toNumeric])
     (by norm_num)
     (by norm_num [normalizeRecord_Capacity_MWh, capacityMWh, toNumeric])⟩

/-- C5: the size categories place the derived power (resp. capacity)
into the five bins with boundaries 0, 1, 10, 100, 1000, ∞, and a
value that is exactly zero, negative, or missing yields no category. -/
theorem size_category_binning (hasTech : Bool) (r : RawRecord) :
    ((normalizeRecord hasTech r).Power_MW = none →
      (normalizeRecord hasTech r).Power_Category = none) ∧
    (∀ v : ℚ, (normalizeRecord hasTech r).Power_MW = some v →
      ((v ≤ 0 → (normalizeRecord hasTech r).Power_Category = none) ∧
       (0 < v → v ≤ 1 → (normalizeRecord hasTech r).Power_Category = some "<1 MW") ∧
       (1 < v → v ≤ 10 → (normalizeRecord hasTech r).Power_Category = some "1-10 MW") ∧
       (10 < v → v ≤ 100 → (normalizeRecord hasTech r).Power_Category = some "10-100 MW") ∧
       (100 < v → v ≤ 1000 → (normalizeRecord hasTech r).Power_Category = some "100-1000 MW") ∧
       (1000 < v → (normalizeRecord hasTech r).Power_Category = some ">1000 MW"))) ∧
    ((normalizeRecord hasTech r).Capacity_MWh = none →
      (normalizeRecord hasTech r).Capacity_Category = none) ∧
    (∀ v : ℚ, (normalizeRecord hasTech r).Capacity_MWh = some v →
      ((v ≤ 0 → (normalizeRecord hasTech r).Capacity_Category = none) ∧
       (0 < v → v ≤ 1 → (normalizeRecord hasTech r).Capacity_Category = some "<1 MWh") ∧
       (1 < v → v ≤ 10 → (normalizeRecord hasTech r).Capacity_Category = some "1-10 MWh") ∧
       (10 < v → v ≤ 100 → (normalizeRecord hasTech r).Capacity_Category = some "10-100 MWh") ∧
       (100 < v → v ≤ 1000 →
         (normalizeRecord hasTech r).Capacity_Category = some "100-1000 MWh") ∧
       (1000 < v → (normalizeRecord hasTech r).Capacity_Category = some ">1000 MWh"))) := by
  rw [normalizeRecord_Power_MW, normalizeRecord_Power_Category,
    normalizeRecord_Capacity_MWh, normalizeRecord_Capacity_Category]
  refine ⟨fun h => by rw [h]; rfl, fun v hv => ?_, fun h => by rw [h]; rfl, fun v hv => ?_⟩
  · rw [hv]
    exact ⟨fun h => cut5_of_nonpos _ _ _ _ _ v h,
      fun h0 h1 => cut5_bin1 _ _ _ _ _ v h0 h1,
      fun h0 h1 => cut5_bin2 _ _ _ _ _ v h0 h1,
      fun h0 h1 => cut5_bin3 _ _ _ _ _ v h0 h1,
      fun h0 h1 => cut5_bin4 _ _ _ _ _ v h0 h1,
      fun h0 => cut5_bin5 _ _ _ _ _ v h0⟩
  · rw [hv]
    exact ⟨fun h => cut5_of_nonpos _ _ _ _ _ v h,
      fun h0 h1 => cut5_bin1 _ _ _ _ _ v h0 h1,
      fun h0 h1 => cut5_bin2 _ _ _ _ _ v h0 h1,
      fun h0 h1 => cut5_bin3 _ _ _ _ _ v h0 h1,
      fun h0 h1 => cut5_bin4 _ _ _ _ _ v h0 h1,
      fun h0 => cut5_bin5 _ _ _ _ _ v h0⟩

/-- Witness for the C5 theorem: missing, zero, and in-bin power values
and an in-bin capacity value, on concrete records. -/
theorem size_category_binning_witness :
    (normalizeRecord false {}).Power_Category = none ∧
    (normalizeRecord false { Bruttoleistung := some (JsonVal.num 0) }).Power_Category = none ∧
    (normalizeRecord false
      { Bruttoleistung := some (JsonVal.num 5000) }).Power_Category = some "1-10 MW" ∧
    (normalizeRecord false
      { NutzbareSpeicherkapazitaet := some (JsonVal.num 20000) }).Capacity_Category =
      some "10-100 MWh" :=
  ⟨(size_category_binning false {}).1 rfl,
   ((size_category_binning false { Bruttoleistung := some (JsonVal.num 0) }).2.1 0
      (by norm_num [normalizeRecord_Power_MW, powerMW, toNumeric])).1 le_rfl,
   ((size_category_binning false { Bruttoleistung := some (JsonVal.num 5000) }).2.1 5
      (by norm_num [normalizeRecord_Power_MW, powerMW, toNumeric])).2.2.1
     (by norm_num) (by norm_num),
   ((size_category_binning false
      { NutzbareSpeicherkapazitaet := some (JsonVal.num 20000) }).2.2.2 20
      (by norm_num [normalizeRecord_Capacity_MWh, capacityMWh, toNumeric])).2.2.2.1
     (by norm_num) (by norm_num)⟩

/-- C6: a record whose value for a range-filtered numeric column is
missing fails that range criterion and is excluded from the filtered
result, for any bounds; the missing value is never treated as zero. -/
theorem missing_value_fails_range_criterion (lo hi : ℚ) (r : NormRecord)
    (cs : List Criterion) (rs : List NormRecord) :
    (r.Power_MW = none → evalCriterion (Criterion.powerRange lo hi) r = false) ∧
    (r.Capacity_MWh = none → evalCriterion (Criterion.capacityRange lo hi) r = false) ∧
    (r.Power_MW = none → Criterion.powerRange lo hi ∈ cs → r ∉ filterRecords cs rs) ∧
    (r.Capacity_MWh = none → Criterion.capacityRange lo hi ∈ cs → r ∉ filterRecords cs rs) := by
  refine ⟨fun h => by simp [evalCriterion, h], fun h => by simp [evalCriterion, h], ?_, ?_⟩
  · intro h hcs hmem
    simp only [filterRecords] at hmem
    have hall := (List.mem_filter.mp hmem).2
    rw [List.all_eq_true] at hall
    have := hall _ hcs
    simp [evalCriterion, h] at this
  · intro h hcs hmem
    simp only [filterRecords] at hmem
    have hall := (List.mem_filter.mp hmem).2
    rw [List.all_eq_true] at hall
    have := hall _ hcs
    simp [evalCriterion, h] at this

/-- Witness for the C6 theorem: a fully missing normalized record fails
the power-range criterion and is excluded. -/
theorem missing_value_fails_range_criterion_witness :
    evalCriterion (Criterion.powerRange 0 1) (normalizeRecord false {}) = false ∧
    (normalizeRecord false {}) ∉
      filterRecords [Criterion.powerRange 0 1] [normalizeRecord false {}] :=
  ⟨(missing_value_fails_range_criterion 0 1 (normalizeRecord false {})
      [Criterion.powerRange 0 1] [normalizeRecord false {}]).1 rfl,
   (missing_value_fails_range_criterion 0 1 (normalizeRecord false {})
      [Criterion.powerRange 0 1] [normalizeRecord false {}]).2.2.1 rfl
     (List.Mem.head _)⟩

/-- C7: a successful normalization produces exactly one output row per
input row, in the same order — the output is the per-row map of the
row-wise pipeline over the input, and no row is dropped (the
coordinate filter of `create_map_rows` is a separate display-time
step). -/
theorem preprocess_data_row_correspondence (records : List RawRecord) (out : List NormRecord)
    (h : preprocess_data records = PreprocessResult.ok out) :
    out = records.map (normalizeRecord (hasColumn records (fun r => r.Batterietechnologie))) ∧
    out.length = records.length := by
  unfold preprocess_data at h
  split_ifs at h
  all_goals injection h with h2
  all_goals subst h2
  all_goals exact ⟨rfl, by simp⟩

/-- Witness for the C7 theorem at a concrete two-record input. -/
theorem preprocess_data_row_correspondence_witness :
    ([{ EinheitName := some "A", Bruttoleistung := some (JsonVal.num 1000),
        NutzbareSpeicherkapazitaet := some (JsonVal.num 2000) },
      { EinheitName := some "B", Bruttoleistung := some (JsonVal.num 3000),
        NutzbareSpeicherkapazitaet := some (JsonVal.num 4000) }].map
      (normalizeRecord false)).length = 2 := by
  have h : preprocess_data
      [{ EinheitName := some "A", Bruttoleistung := some (JsonVal.num 1000),
         NutzbareSpeicherkapazitaet := some (JsonVal.num 2000) },
       { EinheitName := some "B", Bruttoleistung := some (JsonVal.num 3000),
         NutzbareSpeicherkapazitaet := some (JsonVal.num 4000) }] =
      PreprocessResult.ok
        ([{ EinheitName := some "A", Bruttoleistung := some (JsonVal.num 1000),
            NutzbareSpeicherkapazitaet := some (JsonVal.num 2000) },
          { EinheitName := some "B", Bruttoleistung := some (JsonVal.num 3000),
            NutzbareSpeicherkapazitaet := some (JsonVal.num 4000) }].map
          (normalizeRecord false)) := rfl
  exact (preprocess_data_row_correspondence _ _ h).2

/-- C8: filtering with the two-criterion set equals filtering with one
criterion and then the other, in either order, and the result is a
subsequence of the input (order-preserving, AND semantics). -/
theorem filter_criteria_set_eq_sequential (A B : Criterion) (rs : List NormRecord) :
    filterRecords [A, B] rs = filterRecords [B] (filterRecords [A] rs) ∧
    filterRecords [A, B] rs = filterRecords [A] (filterRecords [B] rs) ∧
    List.Sublist (filterRecords [A, B] rs) rs := by
  refine ⟨?_, ?_, ?_⟩
  · simp [filterRecords, List.filter_filter, Bool.and_comm]
  · simp [filterRecords, List.filter_filter, Bool.and_comm]
  · exact List.filter_sublist rs

/-- C9: the derived `Power_MW` is exactly the parsed `Bruttoleistung`
divided by 1000 and `Capacity_MWh` exactly the parsed
`NutzbareSpeicherkapazitaet` divided by 1000; a missing or non-numeric
source propagates as missing, not as zero. -/
theorem unit_conversion (hasTech : Bool) (r : RawRecord) :
    (∀ v : ℚ, toNumeric r.Bruttoleistung = some v →
      (normalizeRecord hasTech r).Power_MW = some (v / 1000)) ∧
    (toNumeric r.Bruttoleistung = none → (normalizeRecord hasTech r).Power_MW = none) ∧
    (∀ v : ℚ, toNumeric r.NutzbareSpeicherkapazitaet = some v →
      (normalizeRecord hasTech r).Capacity_MWh = some (v / 1000)) ∧
    (toNumeric r.NutzbareSpeicherkapazitaet = none →
      (normalizeRecord hasTech r).Capacity_MWh = none) := by
  rw [normalizeRecord_Power_MW, normalizeRecord_Capacity_MWh]
  refine ⟨fun v h => ?_, fun h => ?_, fun v h => ?_, fun h => ?_⟩
  · simp [powerMW, h]
  · simp [powerMW, h]
  · simp [capacityMWh, h]
  · simp [capacityMWh, h]

/-- Witness for the C9 theorem: a numeric string source and a missing
source, on a concrete record. -/
theorem unit_conversion_witness :
    (normalizeRecord false
      { Bruttoleistung := some (JsonVal.str "5000") }).Power_MW = some (5000 / 1000) ∧
    (normalizeRecord false
      { Bruttoleistung := some (JsonVal.str "5000") }).Capacity_MWh = none :=
  ⟨(unit_conversion false { Bruttoleistung := some (JsonVal.str "5000") }).1 5000 (by decide),
   (unit_conversion false { Bruttoleistung := some (JsonVal.str "5000") }).2.2.2 rfl⟩

/-- C10: the bins are left-open and right-closed, so a derived value
that is exactly an interior boundary (1, 10, 100 or 1000) is assigned
the bucket below the boundary, for power and capacity alike. -/
theorem boundary_values_fall_in_lower_bucket (hasTech : Bool) (r : RawRecord) :
    ((normalizeRecord hasTech r).Power_MW = some 1 →
      (normalizeRecord hasTech r).Power_Category = some "<1 MW") ∧
    ((normalizeRecord hasTech r).Power_MW = some 10 →
      (normalizeRecord hasTech r).Power_Category = some "1-10 MW") ∧
    ((normalizeRecord hasTech r).Power_MW = some 100 →
      (normalizeRecord hasTech r).Power_Category = some "10-100 MW") ∧
    ((normalizeRecord hasTech r).Power_MW = some 1000 →
      (normalizeRecord hasTech r).Power_Category = some "100-1000 MW") ∧
    ((normalizeRecord hasTech r).Capacity_MWh = some 1 →
      (normalizeRecord hasTech r).Capacity_Category = some "<1 MWh") ∧
    ((normalizeRecord hasTech r).Capacity_MWh = some 10 →
      (normalizeRecord hasTech r).Capacity_Category = some "1-10 MWh") ∧
    ((normalizeRecord hasTech r).Capacity_MWh = some 100 →
      (normalizeRecord hasTech r).Capacity_Category = some "10-100 MWh") ∧
    ((normalizeRecord hasTech r).Capacity_MWh = some 1000 →
      (normalizeRecord hasTech r).Capacity_Category = some "100-1000 MWh") := by
  rw [normalizeRecord_Power_MW, normalizeRecord_Power_Category,
    normalizeRecord_Capacity_MWh, normalizeRecord_Capacity_Category]
  refine ⟨?_, ?_, ?_, ?_, ?_, ?_, ?_, ?_⟩
  · intro h
    rw [h]
    exact cut5_bin1 _ _ _ _ _ 1 (by norm_num) (by norm_num)
  · intro h
    rw [h]
    exact cut5_bin2 _ _ _ _ _ 10 (by norm_num) (by norm_num)
  · intro h
    rw [h]
    exact cut5_bin3 _ _ _ _ _ 100 (by norm_num) (by norm_num)
  · intro h
    rw [h]
    exact cut5_bin4 _ _ _ _ _ 1000 (by norm_num) (by norm_num)
  · intro h
    rw [h]
    exact cut5_bin1 _ _ _ _ _ 1 (by norm_num) (by norm_num)
  · intro h
    rw [h]
    exact cut5_bin2 _ _ _ _ _ 10 (by norm_num) (by norm_num)
  · intro h
    rw [h]
    exact cut5_bin3 _ _ _ _ _ 100 (by norm_num) (by norm_num)
  · intro h
    rw [h]
    exact cut5_bin4 _ _ _ _ _ 1000 (by norm_num) (by norm_num)

/-- Witness for the C10 theorem: power exactly 1 MW and capacity
exactly 10 MWh on concrete records. -/
theorem boundary_values_fall_in_lower_bucket_witness :
    (normalizeRecord false
      { Bruttoleistung := some (JsonVal.num 1000) }).Power_Category = some "<1 MW" ∧
    (normalizeRecord false
      { NutzbareSpeicherkapazitaet := some (JsonVal.num 10000) }).Capacity_Category =
      some "1-10 MWh" :=
  ⟨(boundary_values_fall_in_lower_bucket false
      { Bruttoleistung := some (JsonVal.num 1000) }).1
     (by norm_num [normalizeRecord_Power_MW, powerMW, toNumeric]),
   (boundary_values_fall_in_lower_bucket false
      { NutzbareSpeicherkapazitaet := some (JsonVal.num 10000) }).2.2.2.2.2.1
     (by norm_num [normalizeRecord_Capacity_MWh, capacityMWh, toNumeric])⟩

end BatteryDashboard
